import Mathlib

/-!
Verification of `src/playback_manager.rs` from the emulsion image viewer.

The file shallowly embeds the `PlaybackManager` state machine and its
per-tick `update_image` routine.  The `ImageCache` (together with the GPU
window handle) lives outside the analysed source file, so its operations are
modelled as an abstract environment `ImageCacheOps` supplying the results of
the cache calls that `update_image` performs; the calls themselves and all
window/stderr output are recorded as an explicit list of `Effect`s, so that
claims about what `update_image` does to the outside world are statable.

Machine integers: `u64` values are carried as `Nat`, with the wrapping
subtraction / addition that the release-mode Rust code performs made explicit
via `wrapSub64` and `% u64Mod`; the `as i32` and `as isize` casts are the
two's-complement truncations `toI32` / `toI64`.
-/

/-- The modulus `2 ^ 64` of Rust's `u64` arithmetic. -/
def u64Mod : Nat := 18446744073709551616

/-- Release-mode wrapping subtraction on `u64` values (both arguments are
`u64` values, i.e. already `< u64Mod`; the definition reduces the second
argument so that it is total on `Nat`). -/
def wrapSub64 (a b : Nat) : Nat := (a + (u64Mod - b % u64Mod)) % u64Mod

/-- Rust's `as i32` cast from `u64`: keep the low 32 bits, read them as
two's complement. -/
def toI32 (n : Nat) : Int :=
  let m := n % 4294967296
  if m < 2147483648 then (m : Int) else (m : Int) - 4294967296

/-- Rust's `as isize` cast from `u64` on a 64-bit host: keep the low 64 bits,
read them as two's complement. -/
def toI64 (n : Nat) : Int :=
  let m := n % u64Mod
  if m < 9223372036854775808 then (m : Int) else (m : Int) - (u64Mod : Int)

/-- One component of a Rust `Path`, after the normalisation performed by
`Path::components` (so a `PathBuf` is modelled as its component list). -/
inductive PathComponent where
  | rootDir
  | parentDir
  | normal (s : String)
deriving DecidableEq, Repr

/-- A Rust `PathBuf`, modelled as its normalised component sequence. -/
def PathBuf := List PathComponent
deriving DecidableEq, Repr

/-- Rust's `Path::file_name`: the final component when it is a normal
component, `None` when the path ends in a root or parent-directory
component (or is empty). -/
def fileName (p : PathBuf) : Option String :=
  match List.getLast? p with
  | some (PathComponent.normal s) => some s
  | _ => Option.none

/-- Mirrors `enum LoadRequest` of `playback_manager.rs`.  `Jump` carries the
`i32` offset as an `Int`. -/
inductive LoadRequest where
  | none
  | loadNext
  | loadPrevious
  | loadSpecific (path : PathBuf)
  | jump (count : Int)
deriving DecidableEq, Repr

/-- Mirrors `enum PlaybackState` (the `Backward` variant is commented out in
the source). -/
inductive PlaybackState where
  | paused
  | forward
deriving DecidableEq, Repr

/-- An `error_chain` style error value as consumed by `update_image`:
its display message, the chain of underlying causes (what `err.iter()`
yields after the error itself), and an optional formatted backtrace. -/
structure LoadError where
  message : String
  causes : List String
  backtrace : Option String
deriving DecidableEq, Repr

/-- The in-memory state of `struct PlaybackManager` (the owned `ImageCache`
is external to the analysed file and is represented by the environment
`ImageCacheOps` instead; `Instant`s are absolute nanosecond timestamps). -/
structure PlaybackManager where
  playback_state : PlaybackState
  playback_start_time : Nat
  frame_count_since_playback_start : Nat
  load_request : LoadRequest
  should_sleep : Bool
  image_texture : Option Nat
deriving DecidableEq, Repr

/-- Results that the external `ImageCache` returns for the calls performed
during one `update_image` tick.  Textures are abstract ids (`Nat`); the
loads return the texture together with the loaded file name. -/
structure ImageCacheOps where
  processPrefetched : Except LoadError Unit
  loadNext : Except LoadError (Nat × String)
  loadPrev : Except LoadError (Nat × String)
  loadSpecific : PathBuf → Except LoadError Nat
  loadJump : Int → Except LoadError (Nat × String)

/-- Observable actions of one `update_image` tick, in program order: calls
into the image cache, window-title updates, and lines written to stderr. -/
inductive Effect where
  | processPrefetched
  | sendLoadRequests
  | cacheLoadNext
  | cacheLoadPrev
  | cacheLoadSpecific (path : PathBuf)
  | cacheLoadJump (count : Int)
  | setTitle (s : String)
  | stderrLine (s : String)
deriving DecidableEq, Repr

/-- Result of one `update_image` tick: the post state, the effect trace, and
`some msg` when the tick panicked (in which case `state` and `effects` are
the state and trace at the panic point). -/
structure TickOutcome where
  state : PlaybackManager
  effects : List Effect
  panic : Option String
deriving Repr

/-- Constant `NANOS_PER_SEC` from the source. -/
def NANOS_PER_SEC : Nat := 1000000000

/-- Constant `frame_delta_time_nanos = (NANOS_PER_SEC as f64 / framerate) as u64`
with `framerate = 25.0`.  The `f64` division `1e9 / 25.0` is exact
(both operands and the quotient `4e7` are representable), so the cast
yields exactly `10^9 / 25 = 40000000`. -/
def frame_delta_time_nanos : Nat := NANOS_PER_SEC / 25

/-- Value of `(frame_delta_time_nanos as f32 * BUISY_WAIT_TRESHOLD) as u64` with
`BUISY_WAIT_TRESHOLD = 0.8f32`: `40000000` is exactly representable in
`f32`; `0.8f32` is `0.800000011920928955078125`, so the exact product is
`32000000.4768...`, which rounds (nearest, spacing 2 at this magnitude) to
the representable `32000000.0`; truncation to `u64` gives `32000000`. -/
def buisy_wait_threshold_nanos : Nat := 32000000

/-- Panic message of `Result::unwrap` on an `Err`, as raised by the
`self.image_cache.process_prefetched(window.display()).unwrap()` calls. -/
def unwrapPanicMsg : String := "called Result.unwrap on an Err value"

/-- Panic message of the `unreachable!()` arm of the synthesized-request
match (the `PlaybackState::Paused` arm, which is dead code because the
enclosing branch has already ruled `Paused` out). -/
def unreachableMsg : String := "internal error: entered unreachable code"

/-- The error built by `update_image` when `file_path.file_name()` is `None`
for a `LoadSpecific` request: `Err(String::from("Could not extract
filename").into())`.  A message-only `error_chain` error: no causes, and no
backtrace captured by default. -/
def nameExtractionErr : LoadError :=
  { message := "Could not extract filename", causes := [], backtrace := Option.none }

/-- The stderr lines written by the `Err` arm of `update_image`
(lines 205-218 of the source): the error itself, each underlying cause,
the backtrace when one was captured, then a blank line. -/
def errReportLines (e : LoadError) : List Effect :=
  [Effect.stderrLine ("Error occured while loading image: " ++ e.message)]
    ++ e.causes.map (fun c => Effect.stderrLine ("... caused by: " ++ c))
    ++ (match e.backtrace with
        | some b => [Effect.stderrLine ("backtrace: " ++ b)]
        | Option.none => [])
    ++ [Effect.stderrLine ""]

/-- The `match load_request` of lines 174-190: which cache call (if any) a
request resolves to, its result, and the cache-call effects it performs.
A `LoadSpecific` request whose path has no file-name component produces the
name-extraction error without calling into the cache. -/
def resolveLoad (cache : ImageCacheOps) (req : LoadRequest) :
    Option (Except LoadError (Nat × String)) × List Effect :=
  match req with
  | LoadRequest.loadNext => (some cache.loadNext, [Effect.cacheLoadNext])
  | LoadRequest.loadPrevious => (some cache.loadPrev, [Effect.cacheLoadPrev])
  | LoadRequest.loadSpecific p =>
      match fileName p with
      | some n =>
          (some ((cache.loadSpecific p).map (fun t => (t, n))),
            [Effect.cacheLoadSpecific p])
      | Option.none => (some (Except.error nameExtractionErr), [])
  | LoadRequest.jump n => (some (cache.loadJump n), [Effect.cacheLoadJump n])
  | LoadRequest.none => (Option.none, [])

/-- Lines 174-223 of `update_image`: resolve the (possibly synthesized)
request, then on success store the texture and set the title only when
paused; on failure clear the texture, set the `"[none]"` sentinel title and
write the error report; in either case set `should_sleep = false`.  When the
request is `None` nothing happens. -/
def finishLoad (s : PlaybackManager) (req : LoadRequest) (cache : ImageCacheOps)
    (fx : List Effect) : TickOutcome :=
  match resolveLoad cache req with
  | (Option.none, _) => { state := s, effects := fx, panic := Option.none }
  | (some result, loadFx) =>
      match result with
      | Except.ok (texture, filename) =>
          let titleFx :=
            if s.playback_state = PlaybackState.paused
            then [Effect.setTitle filename] else []
          { state := { s with image_texture := some texture, should_sleep := false },
            effects := fx ++ loadFx ++ titleFx,
            panic := Option.none }
      | Except.error e =>
          { state := { s with image_texture := Option.none, should_sleep := false },
            effects := fx ++ loadFx ++ [Effect.setTitle "[none]"] ++ errReportLines e,
            panic := Option.none }

/-- Lines 128-170 of `update_image`: reset `should_sleep`, take the pending
request (the `mem::swap`), then run the paused / playing branch logic.
Returns the state after the branch, the (possibly synthesized) request to
process, the effects so far, and `some msg` if a panic fired. -/
def tickPrepare (s0 : PlaybackManager) (now : Nat) (cache : ImageCacheOps) :
    PlaybackManager × LoadRequest × List Effect × Option String :=
  let s1 : PlaybackManager := { s0 with should_sleep := true }
  let load_request := s1.load_request
  let s2 : PlaybackManager := { s1 with load_request := LoadRequest.none }
  if s2.playback_state = PlaybackState.paused then
    match cache.processPrefetched with
    | Except.error _ =>
        (s2, load_request, [Effect.processPrefetched], some unwrapPanicMsg)
    | Except.ok _ =>
        (s2, load_request, [Effect.processPrefetched, Effect.sendLoadRequests],
          Option.none)
  else if load_request = LoadRequest.none then
    let elapsed_nanos := now - s2.playback_start_time
    let frame_step :=
      wrapSub64 (elapsed_nanos / frame_delta_time_nanos)
        s2.frame_count_since_playback_start
    if frame_step > 0 then
      match s2.playback_state with
      | PlaybackState.forward =>
          ({ s2 with frame_count_since_playback_start :=
                (s2.frame_count_since_playback_start + frame_step) % u64Mod },
            LoadRequest.jump (toI32 frame_step), [], Option.none)
      | PlaybackState.paused => (s2, load_request, [], some unreachableMsg)
    else
      match cache.processPrefetched with
      | Except.error _ =>
          (s2, LoadRequest.none, [Effect.processPrefetched], some unwrapPanicMsg)
      | Except.ok _ =>
          let nanos_since_last := elapsed_nanos % frame_delta_time_nanos
          if nanos_since_last > buisy_wait_threshold_nanos then
            ({ s2 with should_sleep := false }, LoadRequest.none,
              [Effect.processPrefetched], Option.none)
          else
            (s2, LoadRequest.none,
              [Effect.processPrefetched, Effect.sendLoadRequests], Option.none)
  else
    (s2, load_request, [], Option.none)

/-- Function `PlaybackManager::update_image`, one tick: branch logic (`tickPrepare`)
followed by request processing (`finishLoad`), stopping at a panic. -/
def updateImage (s0 : PlaybackManager) (now : Nat) (cache : ImageCacheOps) :
    TickOutcome :=
  match tickPrepare s0 now cache with
  | (s, _, fx, some msg) => { state := s, effects := fx, panic := some msg }
  | (s, req, fx, Option.none) => finishLoad s req cache fx

/-- Constructor `PlaybackManager::new` (state fields only; `now` is the
`Instant::now()` captured at construction).  The initial state is paused
with no pending request, no texture, and `should_sleep = true`. -/
def PlaybackManager.new (now : Nat) : PlaybackManager :=
  { playback_state := PlaybackState.paused,
    playback_start_time := now,
    frame_count_since_playback_start := 0,
    load_request := LoadRequest.none,
    should_sleep := true,
    image_texture := Option.none }

/-- The cache-capacity computation of `PlaybackManager::new`:
`sys_info::mem_info()` reports total memory in KiB; on success the budget is
`((value.total / 8) * 1024) as isize`, otherwise the fixed fallback of
`500_000_000` bytes.  The argument is `some totalKiB` on success, `none` on
failure. -/
def cache_capaxity (memTotalKiB : Option Nat) : Int :=
  match memTotalKiB with
  | some total => toI64 ((total / 8) * 1024)
  | Option.none => 500000000

/-- The spec's wording of the budget ("host total memory divided by 8,
expressed in bytes"): total memory is `totalKiB * 1024` bytes, divided
by 8. -/
def specCacheCapacityBytes (memTotalKiB : Nat) : Int :=
  ((memTotalKiB * 1024) / 8 : Nat)

/-- The mutating operations of `PlaybackManager` relevant to its state
fields, each tagged with the `Instant::now()` it observes where it reads
the clock.  `update_directory` only touches the external cache. -/
inductive Op where
  | startPlaybackForward (now : Nat)
  | pausePlayback
  | requestLoad (r : LoadRequest)
  | updateDirectory
  | updateImage (now : Nat) (cache : ImageCacheOps)

/-- Effect of one operation on the `PlaybackManager` state:
`start_playback_forward` (lines 88-92) re-anchors the clock, zeroes the
frame counter and enters `Forward`; `pause_playback` enters `Paused`;
`request_load` stores the request; `update_image` is the tick. -/
def stepOp (s : PlaybackManager) (op : Op) : PlaybackManager :=
  match op with
  | Op.startPlaybackForward now =>
      { s with playback_start_time := now,
               frame_count_since_playback_start := 0,
               playback_state := PlaybackState.forward }
  | Op.pausePlayback => { s with playback_state := PlaybackState.paused }
  | Op.requestLoad r => { s with load_request := r }
  | Op.updateDirectory => s
  | Op.updateImage now cache => (updateImage s now cache).state

/-- The clock value after an operation: operations that read the clock
advance the last-observed time, the others keep it. -/
def nextNow (lastNow : Nat) : Op → Nat
  | Op.startPlaybackForward now => now
  | Op.updateImage now _ => now
  | _ => lastNow

/-- Well-formedness of an operation w.r.t. the monotone clock: every clock
read is at least the last observed time and (being a `u64` nanosecond
count) below `2 ^ 64`. -/
def OpWF (lastNow : Nat) : Op → Prop
  | Op.startPlaybackForward now => lastNow ≤ now ∧ now < u64Mod
  | Op.updateImage now _ => lastNow ≤ now ∧ now < u64Mod
  | _ => True

/-- Clock invariant: while playing forward, the clock anchor is in the past
and the frame counter never exceeds the number of whole frame periods
elapsed at the last observed time. -/
def ClockInv (s : PlaybackManager) (lastNow : Nat) : Prop :=
  s.playback_state = PlaybackState.forward →
    s.playback_start_time ≤ lastNow ∧
    s.frame_count_since_playback_start ≤
      (lastNow - s.playback_start_time) / frame_delta_time_nanos

/-! ### Helper lemmas -/

theorem wrapSub64_eq_sub {a b : Nat} (hba : b ≤ a) (ha : a < u64Mod) :
    wrapSub64 a b = a - b := by
  unfold wrapSub64 u64Mod at *
  omega

theorem wrapSub64_self (a : Nat) : wrapSub64 a a = 0 := by
  unfold wrapSub64 u64Mod
  omega

theorem toI32_small {n : Nat} (h : n < 2147483648) : toI32 n = (n : Int) := by
  unfold toI32
  have h1 : n % 4294967296 = n := Nat.mod_eq_of_lt (by omega)
  simp [h1, h]

theorem toI64_small {n : Nat} (h : n < 9223372036854775808) : toI64 n = (n : Int) := by
  unfold toI64
  have h1 : n % u64Mod = n := Nat.mod_eq_of_lt (by unfold u64Mod; omega)
  simp [h1, h]

theorem finishLoad_preserves (s : PlaybackManager) (req : LoadRequest)
    (cache : ImageCacheOps) (fx : List Effect) :
    (finishLoad s req cache fx).state.load_request = s.load_request ∧
    (finishLoad s req cache fx).state.playback_state = s.playback_state ∧
    (finishLoad s req cache fx).state.playback_start_time = s.playback_start_time ∧
    (finishLoad s req cache fx).state.frame_count_since_playback_start =
      s.frame_count_since_playback_start := by
  unfold finishLoad
  rcases h : resolveLoad cache req with ⟨r, loadFx⟩
  match r with
  | Option.none => simp
  | some (Except.ok (t, n)) => simp
  | some (Except.error e) => simp

theorem tickPrepare_state (s : PlaybackManager) (now : Nat) (cache : ImageCacheOps) :
    (tickPrepare s now cache).1.load_request = LoadRequest.none ∧
    (tickPrepare s now cache).1.playback_state = s.playback_state ∧
    (tickPrepare s now cache).1.playback_start_time = s.playback_start_time := by
  obtain ⟨ps, start, count, req, slp, tex⟩ := s
  unfold tickPrepare
  cases ps <;> cases hpp : cache.processPrefetched <;> cases req <;>
    simp [hpp] <;> split_ifs <;> simp

theorem tickPrepare_effects (s : PlaybackManager) (now : Nat) (cache : ImageCacheOps) :
    ∀ e ∈ (tickPrepare s now cache).2.2.1,
      e = Effect.processPrefetched ∨ e = Effect.sendLoadRequests := by
  obtain ⟨ps, start, count, req, slp, tex⟩ := s
  unfold tickPrepare
  cases ps <;> cases hpp : cache.processPrefetched <;> cases req <;>
    simp [hpp] <;> split_ifs <;> simp

theorem updateImage_load_request_aux (s : PlaybackManager) (now : Nat)
    (cache : ImageCacheOps) :
    (updateImage s now cache).state.load_request = LoadRequest.none := by
  unfold updateImage
  rcases h : tickPrepare s now cache with ⟨s2, req, fx, p⟩
  have hlr := (tickPrepare_state s now cache).1
  rw [h] at hlr
  match p with
  | some msg => simpa using hlr
  | Option.none =>
      simpa [(finishLoad_preserves s2 req cache fx).1] using hlr

/-! ### Concrete fixtures used by the witness theorems -/

/-- A cache environment in which every operation succeeds. -/
def testCache : ImageCacheOps :=
  { processPrefetched := Except.ok (),
    loadNext := Except.ok (1, "b.png"),
    loadPrev := Except.ok (2, "a.png"),
    loadSpecific := fun _ => Except.ok 3,
    loadJump := fun _ => Except.ok (4, "c.png") }

/-- A concrete load error with a cause chain and a backtrace. -/
def bigErr : LoadError :=
  { message := "boom", causes := ["io error"], backtrace := some "trace" }

/-- A cache environment in which the synchronous loads fail with `bigErr`. -/
def errLoadCache : ImageCacheOps :=
  { processPrefetched := Except.ok (),
    loadNext := Except.error bigErr,
    loadPrev := Except.error bigErr,
    loadSpecific := fun _ => Except.error bigErr,
    loadJump := fun _ => Except.error bigErr }

/-- A cache environment in which `process_prefetched` fails. -/
def errPrefetchCache : ImageCacheOps :=
  { processPrefetched := Except.error bigErr,
    loadNext := Except.ok (1, "b.png"),
    loadPrev := Except.ok (2, "a.png"),
    loadSpecific := fun _ => Except.ok 3,
    loadJump := fun _ => Except.ok (4, "c.png") }

/-- A manager in the `Forward` state anchored at time 0 with `count` frames
already advanced and no pending request. -/
def forwardState (count : Nat) : PlaybackManager :=
  { playback_state := PlaybackState.forward,
    playback_start_time := 0,
    frame_count_since_playback_start := count,
    load_request := LoadRequest.none,
    should_sleep := true,
    image_texture := Option.none }

/-- A freshly constructed (paused) manager with a pending request `r`. -/
def pausedWith (r : LoadRequest) : PlaybackManager :=
  { PlaybackManager.new 0 with load_request := r }

/-! ### Claim theorems -/

/-- C1.  Every `update_image` tick takes the pending navigation request and
replaces it with `None` before any processing: whatever the state, the
clock value and the cache results — including every failing-load branch and
even the panicking branches — the stored `load_request` is `None` when the
tick ends, so exactly one request is consumed per tick and a request can
only be pending afterwards if it is issued anew. -/
theorem update_image_consumes_request (s : PlaybackManager) (now : Nat)
    (cache : ImageCacheOps) :
    (updateImage s now cache).state.load_request = LoadRequest.none :=
  updateImage_load_request_aux s now cache

/-- C10.  The playback state machine: `PlaybackState` has exactly the two
states `Paused` and `Forward`; a fresh `PlaybackManager` starts `Paused`;
`start_playback_forward` re-anchors the clock at now, zeroes the frame
counter and enters `Forward`; `pause_playback` enters `Paused`
unconditionally; and neither `request_load`, `update_directory` nor a whole
`update_image` tick ever changes the playback state. -/
theorem playback_state_machine :
    (∀ st : PlaybackState, st = PlaybackState.paused ∨ st = PlaybackState.forward) ∧
    (∀ now : Nat, (PlaybackManager.new now).playback_state = PlaybackState.paused) ∧
    (∀ (s : PlaybackManager) (now : Nat),
      (stepOp s (Op.startPlaybackForward now)).playback_state = PlaybackState.forward ∧
      (stepOp s (Op.startPlaybackForward now)).playback_start_time = now ∧
      (stepOp s (Op.startPlaybackForward now)).frame_count_since_playback_start = 0) ∧
    (∀ s : PlaybackManager,
      (stepOp s Op.pausePlayback).playback_state = PlaybackState.paused) ∧
    (∀ (s : PlaybackManager) (r : LoadRequest),
      (stepOp s (Op.requestLoad r)).playback_state = s.playback_state) ∧
    (∀ s : PlaybackManager,
      (stepOp s Op.updateDirectory).playback_state = s.playback_state) ∧
    (∀ (s : PlaybackManager) (now : Nat) (cache : ImageCacheOps),
      (stepOp s (Op.updateImage now cache)).playback_state = s.playback_state) := by
  refine ⟨fun st => ?_, fun now => rfl, fun s now => ⟨rfl, rfl, rfl⟩,
    fun s => rfl, fun s r => rfl, fun s => rfl, fun s now cache => ?_⟩
  · cases st
    · exact Or.inl rfl
    · exact Or.inr rfl
  · show (updateImage s now cache).state.playback_state = s.playback_state
    unfold updateImage
    rcases h : tickPrepare s now cache with ⟨s2, req, fx, p⟩
    have hps := (tickPrepare_state s now cache).2.1
    rw [h] at hps
    match p with
    | some msg => simpa using hps
    | Option.none =>
        simpa [(finishLoad_preserves s2 req cache fx).2.1] using hps

/-- The playback anchor is never moved by a tick. -/
theorem updateImage_start_time (s : PlaybackManager) (now : Nat)
    (cache : ImageCacheOps) :
    (updateImage s now cache).state.playback_start_time = s.playback_start_time := by
  unfold updateImage
  rcases h : tickPrepare s now cache with ⟨s2, req, fx, p⟩
  have hst := (tickPrepare_state s now cache).2.2
  rw [h] at hst
  match p with
  | some msg => simpa using hst
  | Option.none =>
      simpa [(finishLoad_preserves s2 req cache fx).2.2.1] using hst

/-- Characterisation of the frame counter after a tick: it is unchanged,
except on the synthesized-jump branch (playing forward, no pending request,
positive step), where it increases by the wrapped frame step. -/
theorem updateImage_frame_count (s : PlaybackManager) (now : Nat)
    (cache : ImageCacheOps) :
    (updateImage s now cache).state.frame_count_since_playback_start =
      s.frame_count_since_playback_start ∨
    (s.playback_state = PlaybackState.forward ∧
      s.load_request = LoadRequest.none ∧
      0 < wrapSub64 ((now - s.playback_start_time) / frame_delta_time_nanos)
            s.frame_count_since_playback_start ∧
      (updateImage s now cache).state.frame_count_since_playback_start =
        (s.frame_count_since_playback_start +
          wrapSub64 ((now - s.playback_start_time) / frame_delta_time_nanos)
            s.frame_count_since_playback_start) % u64Mod) := by
  obtain ⟨ps, start, count, req, slp, tex⟩ := s
  unfold updateImage tickPrepare
  cases ps <;> cases hpp : cache.processPrefetched
  case paused.error e => simp [hpp]
  case paused.ok u =>
      left
      simp only [hpp]
      simp [(finishLoad_preserves _ _ _ _).2.2.2]
  all_goals {
    cases hreq : decide (req = LoadRequest.none) <;>
      simp only [decide_eq_true_eq, decide_eq_false_iff_not] at hreq
    · left
      simp only [hpp]
      simp [hreq, (finishLoad_preserves _ _ _ _).2.2.2]
    · by_cases hstep :
        0 < wrapSub64 ((now - start) / frame_delta_time_nanos) count
      · right
        refine ⟨rfl, by simpa using hreq, by simpa using hstep, ?_⟩
        simp only [hpp]
        simp [hreq, hstep, (finishLoad_preserves _ _ _ _).2.2.2]
      · left
        simp only [hpp]
        simp [hreq, hstep]
        try (split_ifs <;> simp [(finishLoad_preserves _ _ _ _).2.2.2])
  }

/-- The playback state is never changed by a tick. -/
theorem updateImage_playback_state (s : PlaybackManager) (now : Nat)
    (cache : ImageCacheOps) :
    (updateImage s now cache).state.playback_state = s.playback_state := by
  unfold updateImage
  rcases h : tickPrepare s now cache with ⟨s2, req, fx, p⟩
  have hps := (tickPrepare_state s now cache).2.1
  rw [h] at hps
  match p with
  | some msg => simpa using hps
  | Option.none =>
      simpa [(finishLoad_preserves s2 req cache fx).2.1] using hps

/-- C7.  Under a monotone clock the counter
`frame_count_since_playback_start` never decreases across `update_image`
ticks, and is reset to zero exactly by `start_playback_forward`; the clock
invariant `ClockInv` (while playing forward, the counter never exceeds the
number of whole frame periods elapsed) is preserved by every operation, and
whenever the frame-step subtraction executes (playing forward with no
pending request) the counter is at most
`elapsed_nanos / frame_delta_time_nanos`, so the `u64` subtraction cannot
underflow. -/
theorem frame_count_invariant (s : PlaybackManager) (lastNow : Nat) (op : Op)
    (hInv : ClockInv s lastNow) (hwf : OpWF lastNow op) :
    ClockInv (stepOp s op) (nextNow lastNow op) ∧
    (∀ (now : Nat) (cache : ImageCacheOps), op = Op.updateImage now cache →
      s.frame_count_since_playback_start ≤
        (stepOp s op).frame_count_since_playback_start) ∧
    (∀ now : Nat, op = Op.startPlaybackForward now →
      (stepOp s op).frame_count_since_playback_start = 0) ∧
    (∀ (now : Nat) (cache : ImageCacheOps), op = Op.updateImage now cache →
      s.playback_state = PlaybackState.forward →
      s.load_request = LoadRequest.none →
      s.frame_count_since_playback_start ≤
        (now - s.playback_start_time) / frame_delta_time_nanos) := by
  match op with
  | Op.startPlaybackForward now =>
      refine ⟨fun _ => ⟨le_refl now, Nat.zero_le _⟩, ?_, fun _ _ => rfl, ?_⟩
      · intro _ _ h; cases h
      · intro _ _ h; cases h
  | Op.pausePlayback =>
      refine ⟨fun h => by simp [stepOp] at h, ?_, ?_, ?_⟩
      · intro _ _ h; cases h
      · intro _ h; cases h
      · intro _ _ h; cases h
  | Op.requestLoad r =>
      refine ⟨fun h => hInv h, ?_, ?_, ?_⟩
      · intro _ _ h; cases h
      · intro _ h; cases h
      · intro _ _ h; cases h
  | Op.updateDirectory =>
      refine ⟨fun h => hInv h, ?_, ?_, ?_⟩
      · intro _ _ h; cases h
      · intro _ h; cases h
      · intro _ _ h; cases h
  | Op.updateImage now cache =>
      obtain ⟨hle, hlt⟩ := hwf
      -- the frame-step bound, valid whenever the manager is playing forward
      have hbound : s.playback_state = PlaybackState.forward →
          s.frame_count_since_playback_start ≤
            (now - s.playback_start_time) / frame_delta_time_nanos := by
        intro hfwd
        obtain ⟨hanchor, hcount⟩ := hInv hfwd
        exact le_trans hcount
          (Nat.div_le_div_right (Nat.sub_le_sub_right hle _))
      have hdlt : (now - s.playback_start_time) / frame_delta_time_nanos < u64Mod :=
        lt_of_le_of_lt (le_trans (Nat.div_le_self _ _) (Nat.sub_le _ _)) hlt
      -- the counter after the tick: unchanged, or bumped to the elapsed frame count
      have hcount' :
          (stepOp s (Op.updateImage now cache)).frame_count_since_playback_start =
            s.frame_count_since_playback_start ∨
          (s.playback_state = PlaybackState.forward ∧
            (stepOp s (Op.updateImage now cache)).frame_count_since_playback_start =
              (now - s.playback_start_time) / frame_delta_time_nanos) := by
        rcases updateImage_frame_count s now cache with h | ⟨hfwd, _, _, h⟩
        · exact Or.inl h
        · refine Or.inr ⟨hfwd, ?_⟩
          rw [show stepOp s (Op.updateImage now cache) =
                (updateImage s now cache).state from rfl, h,
            wrapSub64_eq_sub (hbound hfwd) hdlt]
          rw [Nat.add_sub_cancel' (hbound hfwd)]
          exact Nat.mod_eq_of_lt hdlt
      have hps : (stepOp s (Op.updateImage now cache)).playback_state =
          s.playback_state := updateImage_playback_state s now cache
      have hst : (stepOp s (Op.updateImage now cache)).playback_start_time =
          s.playback_start_time := updateImage_start_time s now cache
      refine ⟨?_, ?_, ?_, ?_⟩
      · intro hfwd
        rw [hps] at hfwd
        rw [hst]
        refine ⟨le_trans (hInv hfwd).1 hle, ?_⟩
        rcases hcount' with h | ⟨_, h⟩
        · rw [h]; exact hbound hfwd
        · rw [h]; exact Nat.le_refl _
      · intro now' cache' h
        cases h
        rcases hcount' with h | ⟨hfwd, h⟩
        · rw [h]
        · rw [h]; exact hbound hfwd
      · intro _ h; cases h
      · intro now' cache' h hfwd hreq
        cases h
        exact hbound hfwd

/-- Witness for C7: from a forward-playing manager anchored at 0 with no
frames advanced, a tick at 100ms preserves the clock invariant. -/
theorem frame_count_invariant_witness :
    ClockInv (stepOp (forwardState 0) (Op.updateImage 100000000 testCache))
      (nextNow 0 (Op.updateImage 100000000 testCache)) :=
  (frame_count_invariant (forwardState 0) 0 (Op.updateImage 100000000 testCache)
    (fun _ => ⟨le_refl 0, Nat.zero_le _⟩)
    (by exact ⟨Nat.zero_le _, by unfold u64Mod; omega⟩)).1

/-- Processing a `Jump` request always records the jump call to the cache. -/
theorem finishLoad_jump_mem (s : PlaybackManager) (n : Int)
    (cache : ImageCacheOps) (fx : List Effect) :
    Effect.cacheLoadJump n ∈ (finishLoad s (LoadRequest.jump n) cache fx).effects := by
  unfold finishLoad resolveLoad
  rcases h : cache.loadJump n with e | ⟨t, name⟩ <;> simp [h]

/-- C2.  While playing forward with no pending navigation request, a tick
computes `frame_step = elapsed_nanos / frame_delta_time_nanos -
frame_count_since_playback_start` with `frame_delta_time_nanos =
40000000`, and when the step is positive it synthesizes a
`Jump(frame_step)` request (recorded as a jump call to the cache) and
raises the frame counter by precisely that step, i.e. to
`elapsed_nanos / frame_delta_time_nanos`. -/
theorem update_image_frame_step (s : PlaybackManager) (now : Nat)
    (cache : ImageCacheOps)
    (hs : s.playback_state = PlaybackState.forward)
    (hreq : s.load_request = LoadRequest.none)
    (hlt : (now - s.playback_start_time) / frame_delta_time_nanos < 2147483648)
    (hstep : s.frame_count_since_playback_start <
      (now - s.playback_start_time) / frame_delta_time_nanos) :
    frame_delta_time_nanos = 40000000 ∧
    (updateImage s now cache).state.frame_count_since_playback_start =
      (now - s.playback_start_time) / frame_delta_time_nanos ∧
    Effect.cacheLoadJump
        (((now - s.playback_start_time) / frame_delta_time_nanos -
          s.frame_count_since_playback_start : Nat) : Int)
      ∈ (updateImage s now cache).effects := by
  obtain ⟨ps, start, count, req, slp, tex⟩ := s
  dsimp at hs hreq hlt hstep
  subst hs; subst hreq
  have hdu : (now - start) / frame_delta_time_nanos < u64Mod :=
    lt_trans hlt (by unfold u64Mod; omega)
  have hws : wrapSub64 ((now - start) / frame_delta_time_nanos) count =
      (now - start) / frame_delta_time_nanos - count :=
    wrapSub64_eq_sub (le_of_lt hstep) hdu
  have hpos : 0 < (now - start) / frame_delta_time_nanos - count :=
    Nat.sub_pos_of_lt hstep
  have hcast : toI32 ((now - start) / frame_delta_time_nanos - count) =
      (((now - start) / frame_delta_time_nanos - count : Nat) : Int) :=
    toI32_small (by omega)
  refine ⟨rfl, ?_, ?_⟩
  · unfold updateImage tickPrepare
    simp only [hws]
    simp [hpos, (finishLoad_preserves _ _ _ _).2.2.2]
    have hdu' := hdu
    unfold u64Mod at hdu' ⊢
    omega
  · unfold updateImage tickPrepare
    simp only [hws]
    simp [hpos, hcast]
    exact finishLoad_jump_mem _ _ _ _

/-- Witness for C2 at the spec's concrete numbers: elapsed 100,000,000 ns,
no frames advanced yet, gives a step of 2 and a counter of 2. -/
theorem update_image_frame_step_witness :
    (updateImage (forwardState 0) 100000000 testCache).state.frame_count_since_playback_start =
        (100000000 - (forwardState 0).playback_start_time) / frame_delta_time_nanos ∧
    (100000000 - (forwardState 0).playback_start_time) / frame_delta_time_nanos = 2 ∧
    Effect.cacheLoadJump 2 ∈ (updateImage (forwardState 0) 100000000 testCache).effects := by
  have h := update_image_frame_step (forwardState 0) 100000000 testCache
    rfl rfl (by decide) (by decide)
  exact ⟨h.2.1, by decide, by simpa using h.2.2⟩

/-- C3.  While playing forward with no pending request and no frame step
due, the tick drains prefetched results and then compares
`elapsed_nanos mod frame_delta_time_nanos` against the busy-wait threshold
(80% of the frame period, i.e. 32,000,000 ns): above it, `should_sleep`
becomes `false` and no prefetch requests are issued; otherwise prefetch
requests are issued and `should_sleep` stays `true`. -/
theorem update_image_busy_wait (s : PlaybackManager) (now : Nat)
    (cache : ImageCacheOps)
    (hs : s.playback_state = PlaybackState.forward)
    (hreq : s.load_request = LoadRequest.none)
    (hstep : (now - s.playback_start_time) / frame_delta_time_nanos =
      s.frame_count_since_playback_start)
    (hpp : cache.processPrefetched = Except.ok ()) :
    buisy_wait_threshold_nanos = 32000000 ∧
    ((now - s.playback_start_time) % frame_delta_time_nanos >
        buisy_wait_threshold_nanos →
      (updateImage s now cache).state.should_sleep = false ∧
      (updateImage s now cache).effects = [Effect.processPrefetched]) ∧
    ((now - s.playback_start_time) % frame_delta_time_nanos ≤
        buisy_wait_threshold_nanos →
      (updateImage s now cache).state.should_sleep = true ∧
      (updateImage s now cache).effects =
        [Effect.processPrefetched, Effect.sendLoadRequests]) := by
  obtain ⟨ps, start, count, req, slp, tex⟩ := s
  dsimp at hs hreq hstep
  subst hs; subst hreq
  refine ⟨rfl, ?_, ?_⟩
  · intro hcmp
    unfold updateImage tickPrepare
    dsimp only
    rw [hstep]
    simp [wrapSub64_self, hpp, hcmp, finishLoad, resolveLoad]
  · intro hcmp
    unfold updateImage tickPrepare
    dsimp only
    rw [hstep]
    simp [wrapSub64_self, hpp, Nat.not_lt.mpr hcmp, finishLoad, resolveLoad]

/-- Witness for C3 at the spec's concrete numbers: 35,000,000 ns past the
last frame boundary is beyond the 32,000,000 ns threshold, so the tick
busy-waits and issues no prefetch requests. -/
theorem update_image_busy_wait_witness :
    (updateImage (forwardState 0) 35000000 testCache).state.should_sleep = false ∧
    (updateImage (forwardState 0) 35000000 testCache).effects =
      [Effect.processPrefetched] :=
  (update_image_busy_wait (forwardState 0) 35000000 testCache rfl rfl
    (by decide) rfl).2.1 (by decide)

/-- C8.  The per-tick draining of prefetched results is `.unwrap()`ed: if
the cache's `process_prefetched` returns an error, `update_image` panics —
both in the `Paused` branch and in the playing-forward branch with no
pending request and no frame step due — instead of degrading to the
no-image state. -/
theorem process_prefetched_unwrap_panics (s : PlaybackManager) (now : Nat)
    (cache : ImageCacheOps) (e : LoadError)
    (herr : cache.processPrefetched = Except.error e) :
    (s.playback_state = PlaybackState.paused →
      (updateImage s now cache).panic = some unwrapPanicMsg) ∧
    (s.playback_state = PlaybackState.forward →
      s.load_request = LoadRequest.none →
      wrapSub64 ((now - s.playback_start_time) / frame_delta_time_nanos)
        s.frame_count_since_playback_start = 0 →
      (updateImage s now cache).panic = some unwrapPanicMsg) := by
  obtain ⟨ps, start, count, req, slp, tex⟩ := s
  constructor
  · intro hs
    dsimp at hs; subst hs
    unfold updateImage tickPrepare
    simp [herr]
  · intro hs hreq hstep
    dsimp at hs hreq hstep; subst hs; subst hreq
    unfold updateImage tickPrepare
    dsimp only
    simp [herr, hstep]

/-- Witness for C8: a paused tick with a failing `process_prefetched`
panics. -/
theorem process_prefetched_unwrap_panics_witness :
    (updateImage (PlaybackManager.new 0) 5 errPrefetchCache).panic =
      some unwrapPanicMsg :=
  (process_prefetched_unwrap_panics (PlaybackManager.new 0) 5 errPrefetchCache
    bigErr rfl).1 rfl

/-- The error report always contains the error line, one line per cause,
and the backtrace line when a backtrace was captured. -/
theorem errReportLines_mem (e : LoadError) :
    Effect.stderrLine ("Error occured while loading image: " ++ e.message)
      ∈ errReportLines e ∧
    (∀ c ∈ e.causes,
      Effect.stderrLine ("... caused by: " ++ c) ∈ errReportLines e) ∧
    (∀ b, e.backtrace = some b →
      Effect.stderrLine ("backtrace: " ++ b) ∈ errReportLines e) := by
  refine ⟨by simp [errReportLines], ?_, ?_⟩
  · intro c hc
    unfold errReportLines
    exact List.mem_append_left _ (List.mem_append_left _
      (List.mem_append_right _ (List.mem_map_of_mem _ hc)))
  · intro b hb
    simp [errReportLines, hb]

/-- C4.  Whenever a tick performs a load and the load fails,
`update_image` does not panic: it clears the displayed texture, sets the
window title to the sentinel `"[none]"`, writes the error message, every
underlying cause, and the backtrace when one is available, to stderr, and
sets `should_sleep = false` before returning. -/
theorem update_image_load_failure (s : PlaybackManager) (now : Nat)
    (cache : ImageCacheOps) (s2 : PlaybackManager) (req : LoadRequest)
    (fx fx2 : List Effect) (e : LoadError)
    (hprep : tickPrepare s now cache = (s2, req, fx, Option.none))
    (hres : resolveLoad cache req = (some (Except.error e), fx2)) :
    (updateImage s now cache).panic = Option.none ∧
    (updateImage s now cache).state.image_texture = Option.none ∧
    (updateImage s now cache).state.should_sleep = false ∧
    (updateImage s now cache).effects =
      fx ++ fx2 ++ [Effect.setTitle "[none]"] ++ errReportLines e ∧
    Effect.setTitle "[none]" ∈ (updateImage s now cache).effects ∧
    Effect.stderrLine ("Error occured while loading image: " ++ e.message)
      ∈ (updateImage s now cache).effects ∧
    (∀ c ∈ e.causes, Effect.stderrLine ("... caused by: " ++ c)
      ∈ (updateImage s now cache).effects) ∧
    (∀ b, e.backtrace = some b → Effect.stderrLine ("backtrace: " ++ b)
      ∈ (updateImage s now cache).effects) := by
  have hui : updateImage s now cache = finishLoad s2 req cache fx := by
    unfold updateImage; rw [hprep]
  rw [hui]
  unfold finishLoad
  rw [hres]
  refine ⟨rfl, rfl, rfl, by simp, ?_, ?_, ?_, ?_⟩
  · simp
  · simp [(errReportLines_mem e).1]
  · intro c hc
    simp [(errReportLines_mem e).2.1 c hc]
  · intro b hb
    simp [(errReportLines_mem e).2.2 b hb]

/-- Witness for C4: a paused tick whose pending `LoadNext` fails with a
two-level error chain and a backtrace. -/
theorem update_image_load_failure_witness :
    (updateImage (pausedWith LoadRequest.loadNext) 0 errLoadCache).panic =
      Option.none ∧
    (updateImage (pausedWith LoadRequest.loadNext) 0 errLoadCache).state.image_texture =
      Option.none ∧
    (updateImage (pausedWith LoadRequest.loadNext) 0 errLoadCache).state.should_sleep =
      false ∧
    Effect.setTitle "[none]"
      ∈ (updateImage (pausedWith LoadRequest.loadNext) 0 errLoadCache).effects := by
  have h := update_image_load_failure (pausedWith LoadRequest.loadNext) 0
    errLoadCache (PlaybackManager.new 0) LoadRequest.loadNext
    [Effect.processPrefetched, Effect.sendLoadRequests] [Effect.cacheLoadNext]
    bigErr rfl rfl
  exact ⟨h.1, h.2.1, h.2.2.1, h.2.2.2.2.1⟩

/-- C5.  Whenever a tick performs a load and the load succeeds, the returned
texture replaces the displayed texture, the tick does not panic, the window
title is set to the loaded filename exactly when the playback state is
`Paused` (the title update is suppressed during playback), and
`should_sleep = false` on return. -/
theorem update_image_load_success (s : PlaybackManager) (now : Nat)
    (cache : ImageCacheOps) (s2 : PlaybackManager) (req : LoadRequest)
    (fx fx2 : List Effect) (tex : Nat) (name : String)
    (hprep : tickPrepare s now cache = (s2, req, fx, Option.none))
    (hres : resolveLoad cache req = (some (Except.ok (tex, name)), fx2)) :
    (updateImage s now cache).panic = Option.none ∧
    (updateImage s now cache).state.image_texture = some tex ∧
    (updateImage s now cache).state.should_sleep = false ∧
    (updateImage s now cache).effects =
      fx ++ fx2 ++
        (if s.playback_state = PlaybackState.paused
         then [Effect.setTitle name] else []) := by
  have hui : updateImage s now cache = finishLoad s2 req cache fx := by
    unfold updateImage; rw [hprep]
  have hps : s2.playback_state = s.playback_state := by
    have h := (tickPrepare_state s now cache).2.1
    rw [hprep] at h
    exact h
  rw [hui]
  unfold finishLoad
  rw [hres]
  exact ⟨rfl, rfl, rfl, by rw [hps]⟩

/-- Witness for C5: a paused tick whose pending `LoadNext` succeeds stores
texture 1 and sets the title to the loaded filename. -/
theorem update_image_load_success_witness :
    (updateImage (pausedWith LoadRequest.loadNext) 0 testCache).state.image_texture =
      some 1 ∧
    (updateImage (pausedWith LoadRequest.loadNext) 0 testCache).state.should_sleep =
      false ∧
    (updateImage (pausedWith LoadRequest.loadNext) 0 testCache).effects =
      [Effect.processPrefetched, Effect.sendLoadRequests] ++ [Effect.cacheLoadNext] ++
        (if (pausedWith LoadRequest.loadNext).playback_state = PlaybackState.paused
         then [Effect.setTitle "b.png"] else []) := by
  have h := update_image_load_success (pausedWith LoadRequest.loadNext) 0 testCache
    (PlaybackManager.new 0) LoadRequest.loadNext
    [Effect.processPrefetched, Effect.sendLoadRequests] [Effect.cacheLoadNext]
    1 "b.png" rfl rfl
  exact ⟨h.2.1, h.2.2.1, h.2.2.2⟩

/-- C6.  A `LoadSpecific` request whose path has no file-name component
fails inside `update_image` with the fixed name-extraction error — built by
`update_image` itself, independently of every cache result, hence distinct
from any cache error — the displayed texture is cleared, and no cache load
operation is invoked at all during the tick. -/
theorem update_image_name_extraction (s : PlaybackManager) (now : Nat)
    (cache : ImageCacheOps) (s2 : PlaybackManager) (p : PathBuf)
    (fx : List Effect)
    (hprep : tickPrepare s now cache =
      (s2, LoadRequest.loadSpecific p, fx, Option.none))
    (hname : fileName p = Option.none) :
    (updateImage s now cache).state.image_texture = Option.none ∧
    (updateImage s now cache).effects =
      fx ++ [Effect.setTitle "[none]"] ++ errReportLines nameExtractionErr ∧
    (∀ q : PathBuf,
      Effect.cacheLoadSpecific q ∉ (updateImage s now cache).effects) ∧
    Effect.cacheLoadNext ∉ (updateImage s now cache).effects ∧
    Effect.cacheLoadPrev ∉ (updateImage s now cache).effects ∧
    (∀ n : Int, Effect.cacheLoadJump n ∉ (updateImage s now cache).effects) := by
  have hui : updateImage s now cache =
      finishLoad s2 (LoadRequest.loadSpecific p) cache fx := by
    unfold updateImage; rw [hprep]
  have hfx := tickPrepare_effects s now cache
  rw [hprep] at hfx
  have heff : (finishLoad s2 (LoadRequest.loadSpecific p) cache fx).effects =
      fx ++ [Effect.setTitle "[none]"] ++ errReportLines nameExtractionErr := by
    unfold finishLoad resolveLoad
    dsimp only
    rw [hname]
    simp
  rw [hui]
  refine ⟨?_, heff, ?_, ?_, ?_, ?_⟩
  · unfold finishLoad resolveLoad
    dsimp only
    rw [hname]
  · intro q hmem
    rw [heff] at hmem
    simp only [List.mem_append, List.mem_singleton] at hmem
    rcases hmem with (h | h) | h
    · rcases hfx _ h with h' | h' <;> cases h'
    · cases h
    · simp [errReportLines, nameExtractionErr] at h
  · intro hmem
    rw [heff] at hmem
    simp only [List.mem_append, List.mem_singleton] at hmem
    rcases hmem with (h | h) | h
    · rcases hfx _ h with h' | h' <;> cases h'
    · cases h
    · simp [errReportLines, nameExtractionErr] at h
  · intro hmem
    rw [heff] at hmem
    simp only [List.mem_append, List.mem_singleton] at hmem
    rcases hmem with (h | h) | h
    · rcases hfx _ h with h' | h' <;> cases h'
    · cases h
    · simp [errReportLines, nameExtractionErr] at h
  · intro n hmem
    rw [heff] at hmem
    simp only [List.mem_append, List.mem_singleton] at hmem
    rcases hmem with (h | h) | h
    · rcases hfx _ h with h' | h' <;> cases h'
    · cases h
    · simp [errReportLines, nameExtractionErr] at h

/-- Witness for C6: a pending `LoadSpecific` on the bare root path fails by
name extraction without any cache load call, even though every cache
operation in the environment would have succeeded. -/
theorem update_image_name_extraction_witness :
    (updateImage (pausedWith (LoadRequest.loadSpecific [PathComponent.rootDir]))
      0 testCache).state.image_texture = Option.none ∧
    (∀ q : PathBuf, Effect.cacheLoadSpecific q ∉
      (updateImage (pausedWith (LoadRequest.loadSpecific [PathComponent.rootDir]))
        0 testCache).effects) := by
  have h := update_image_name_extraction
    (pausedWith (LoadRequest.loadSpecific [PathComponent.rootDir])) 0 testCache
    (PlaybackManager.new 0) [PathComponent.rootDir]
    [Effect.processPrefetched, Effect.sendLoadRequests] rfl rfl
  exact ⟨h.1, h.2.2.1⟩

/-- C9 counterexample: `sys_info` reports total memory in KiB and the code
divides the KiB count by 8 before scaling to bytes, so for a host reporting
9 KiB of memory the computed budget is `(9 / 8) * 1024 = 1024` bytes, while
"host total memory divided by 8, expressed in bytes" is
`9 * 1024 / 8 = 1152` bytes. -/
theorem cache_capaxity_counterexample :
    cache_capaxity (some 9) = 1024 ∧
    specCacheCapacityBytes 9 = 1152 ∧
    cache_capaxity (some 9) ≠ specCacheCapacityBytes 9 := by
  refine ⟨?_, ?_, ?_⟩ <;>
    norm_num [cache_capaxity, specCacheCapacityBytes, toI64, u64Mod]

/-- C9 (amended).  At construction the cache byte budget is computed once
as `(totalKiB / 8) * 1024` bytes — host total memory divided by 8 and
rounded down to a whole multiple of 1024 bytes — and falls back to exactly
500,000,000 bytes when the host memory size cannot be determined. -/
theorem cache_capaxity_amended (t : Nat)
    (h : (t / 8) * 1024 < 9223372036854775808) :
    cache_capaxity (some t) = (((t * 1024 / 8) / 1024) * 1024 : Nat) ∧
    cache_capaxity Option.none = 500000000 := by
  constructor
  · have hnat : (t / 8) * 1024 = ((t * 1024 / 8) / 1024) * 1024 := by omega
    show toI64 ((t / 8) * 1024) = _
    rw [toI64_small h, hnat]
  · rfl

/-- Witness for C9 (amended) at the counterexample's input: for 9 KiB the
budget is 1024 bytes, which is indeed `9216 / 8` rounded down to a multiple
of 1024. -/
theorem cache_capaxity_amended_witness :
    cache_capaxity (some 9) = (((9 * 1024 / 8) / 1024) * 1024 : Nat) ∧
    cache_capaxity Option.none = 500000000 :=
  cache_capaxity_amended 9 (by decide)
